import Mathlib

/-!
Shallow embedding of the posture rule-evaluation engine of the
`posturerepo` repository: the keypoint index (`findKeypoint`), the angle
calculator (`calculateAngle` from `utils/postureUtils.js`), the squat and
desk-sitting evaluators of `controllers/postureController.js`, the inline
evaluator revisions of `server.js`, and the activity dispatcher of
`socket/socketHandler.js`.  JavaScript numbers are modelled as real
numbers; a JavaScript value that may be `null`/`undefined`, a number or a
point-like object is modelled by `JVal`.
-/

open Classical

/-- A MoveNet keypoint object `{name, x, y, score}`. -/
structure Keypoint where
  name : String
  x : ℝ
  y : ℝ
  score : ℝ

/-- Placeholder keypoint used only to totalize field access that the code
performs after its confidence gate has already guaranteed presence. -/
def dummyKp : Keypoint := ⟨"", 0, 0, 0⟩

/-- `findKeypoint(keypoints, name)`: `keypoints.find(kp => kp.name === name) || null`. -/
def findKeypoint (keypoints : List Keypoint) (name : String) : Option Keypoint :=
  keypoints.find? (fun kp => kp.name == name)

/-- A JavaScript value as passed to `calculateAngle`: `undefined`/`null`,
a number, or an object with possibly-missing `x`/`y` fields. -/
inductive JVal where
  | undef : JVal
  | num : ℝ → JVal
  | obj : Option ℝ → Option ℝ → JVal

/-- Property access `.x`: only objects have it, otherwise `undefined` (`none`). -/
def JVal.xCoord : JVal → Option ℝ
  | .obj x _ => x
  | _ => none

/-- Property access `.y`. -/
def JVal.yCoord : JVal → Option ℝ
  | .obj _ y => y
  | _ => none

/-- JavaScript truthiness of the values that can reach `calculateAngle`:
`null`/`undefined` are falsy, a number is falsy exactly when it is `0`,
an object is always truthy. -/
def JVal.truthy : JVal → Prop
  | .undef => False
  | .num r => r ≠ 0
  | .obj _ _ => True

/-- View of a non-null keypoint object as a `calculateAngle` argument. -/
def kpVal (k : Keypoint) : JVal := .obj (some k.x) (some k.y)

/-- `calculateAngle(p1, p2, p3)` from `utils/postureUtils.js`: returns `0`
if any point is falsy or misses a coordinate, or if either limb vector has
zero magnitude; otherwise the angle at the vertex `p2` in degrees, with the
cosine clamped to `[-1, 1]` before `Math.acos`. -/
noncomputable def calculateAngle (p1 p2 p3 : JVal) : ℝ :=
  if ¬p1.truthy ∨ ¬p2.truthy ∨ ¬p3.truthy ∨
      p1.xCoord = none ∨ p1.yCoord = none ∨ p2.xCoord = none ∨ p2.yCoord = none ∨
      p3.xCoord = none ∨ p3.yCoord = none then 0
  else
    let x1 := p1.xCoord.getD 0
    let y1 := p1.yCoord.getD 0
    let x2 := p2.xCoord.getD 0
    let y2 := p2.yCoord.getD 0
    let x3 := p3.xCoord.getD 0
    let y3 := p3.yCoord.getD 0
    let v1x := x1 - x2
    let v1y := y1 - y2
    let v2x := x3 - x2
    let v2y := y3 - y2
    let dotProduct := v1x * v2x + v1y * v2y
    let magnitude1 := Real.sqrt (v1x * v1x + v1y * v1y)
    let magnitude2 := Real.sqrt (v2x * v2x + v2y * v2y)
    if magnitude1 = 0 ∨ magnitude2 = 0 then 0
    else Real.arccos (min (max (dotProduct / (magnitude1 * magnitude2)) (-1)) 1) * (180 / Real.pi)

/-- The rounding performed by `angle.toFixed(0)` on a nonnegative number:
nearest integer, ties away from zero, rendered as a decimal string. -/
noncomputable def toFixed0 (x : ℝ) : String := toString ⌊x + 1 / 2⌋

/-- The hunched-back issue string of the squat evaluator. -/
noncomputable def hunchedString (a b : ℝ) : String :=
  "Hunched back detected (Back angle: " ++ toFixed0 a ++ "° / " ++ toFixed0 b ++ ")."

/-- The neck-bend issue string of the desk-sitting evaluator. -/
noncomputable def neckString (a b : ℝ) : String :=
  "Neck bent forward (>30° estimated). Angles: " ++ toFixed0 a ++ "° / " ++ toFixed0 b ++ "°"

/-- The slouching issue string of the desk-sitting evaluator. -/
noncomputable def spineString (a b : ℝ) : String :=
  "Back isn\x27t straight (slouching detected). Angles: " ++ toFixed0 a ++ "° / " ++ toFixed0 b ++ "°"

/-- `evaluateSquatPosture` from `controllers/postureController.js`. -/
noncomputable def evaluateSquatPosture (keypoints : List Keypoint) : List String :=
  let minConfidence : ℝ := 0.2
  let leftShoulder := findKeypoint keypoints "left_shoulder"
  let rightShoulder := findKeypoint keypoints "right_shoulder"
  let leftHip := findKeypoint keypoints "left_hip"
  let rightHip := findKeypoint keypoints "right_hip"
  let leftKnee := findKeypoint keypoints "left_knee"
  let rightKnee := findKeypoint keypoints "right_knee"
  let leftAnkle := findKeypoint keypoints "left_ankle"
  let rightAnkle := findKeypoint keypoints "right_ankle"
  let allPresent : Prop := ∀ kp ∈ [leftShoulder, rightShoulder, leftHip, rightHip,
      leftKnee, rightKnee, leftAnkle, rightAnkle], ∃ k, kp = some k ∧ k.score > minConfidence
  if ¬allPresent then
    ["Insufficient keypoints detected for squat evaluation. Ensure full body is visible."]
  else
    let ls := leftShoulder.getD dummyKp
    let rs := rightShoulder.getD dummyKp
    let lh := leftHip.getD dummyKp
    let rh := rightHip.getD dummyKp
    let lk := leftKnee.getD dummyKp
    let rk := rightKnee.getD dummyKp
    let la := leftAnkle.getD dummyKp
    let ra := rightAnkle.getD dummyKp
    let leftAngle := calculateAngle (kpVal ls) (kpVal lh) (kpVal lk)
    let rightAngle := calculateAngle (kpVal rs) (kpVal rh) (kpVal rk)
    (if lk.x < la.x then ["Left knee over toe."] else []) ++
    (if rk.x > ra.x then ["Right knee over toe."] else []) ++
    (if leftAngle < 150 ∨ rightAngle < 150 then [hunchedString leftAngle rightAngle] else [])

/-- `evaluateDeskSittingPosture` from `controllers/postureController.js`. -/
noncomputable def evaluateDeskSittingPosture (keypoints : List Keypoint) : List String :=
  let minConfidence : ℝ := 0.5
  let nose := findKeypoint keypoints "nose"
  let leftEar := findKeypoint keypoints "left_ear"
  let rightEar := findKeypoint keypoints "right_ear"
  let leftShoulder := findKeypoint keypoints "left_shoulder"
  let rightShoulder := findKeypoint keypoints "right_shoulder"
  let leftHip := findKeypoint keypoints "left_hip"
  let rightHip := findKeypoint keypoints "right_hip"
  let allPresent : Prop := ∀ kp ∈ [nose, leftShoulder, rightShoulder, leftHip, rightHip],
      ∃ k, kp = some k ∧ k.score > minConfidence
  if ¬allPresent then
    ["Insufficient keypoints detected for desk posture evaluation. Ensure upper body is visible."]
  else
    let n := nose.getD dummyKp
    let ls := leftShoulder.getD dummyKp
    let rs := rightShoulder.getD dummyKp
    let lh := leftHip.getD dummyKp
    let rh := rightHip.getD dummyKp
    let neckLeft := calculateAngle (kpVal (leftEar.getD n)) (kpVal ls) (kpVal lh)
    let neckRight := calculateAngle (kpVal (rightEar.getD n)) (kpVal rs) (kpVal rh)
    let spineLeft := calculateAngle (kpVal ls) (kpVal lh) (.obj (some lh.x) (some (lh.y + 0.1)))
    let spineRight := calculateAngle (kpVal rs) (kpVal rh) (.obj (some rh.x) (some (rh.y + 0.1)))
    (if neckLeft < 150 ∨ neckRight < 150 then [neckString neckLeft neckRight] else []) ++
    (if spineLeft < 160 ∨ spineRight < 160 then [spineString spineLeft spineRight] else [])

/-- The inline `evaluateSquatPosture` revision of `server.js`
(minimum confidence `0.01` instead of `0.2`). -/
noncomputable def serverEvaluateSquatPosture (rawKeypoints : List Keypoint) : List String :=
  let minConfidence : ℝ := 0.01
  let leftShoulder := findKeypoint rawKeypoints "left_shoulder"
  let rightShoulder := findKeypoint rawKeypoints "right_shoulder"
  let leftHip := findKeypoint rawKeypoints "left_hip"
  let rightHip := findKeypoint rawKeypoints "right_hip"
  let leftKnee := findKeypoint rawKeypoints "left_knee"
  let rightKnee := findKeypoint rawKeypoints "right_knee"
  let leftAnkle := findKeypoint rawKeypoints "left_ankle"
  let rightAnkle := findKeypoint rawKeypoints "right_ankle"
  let allPresent : Prop := ∀ kp ∈ [leftShoulder, rightShoulder, leftHip, rightHip,
      leftKnee, rightKnee, leftAnkle, rightAnkle], ∃ k, kp = some k ∧ k.score > minConfidence
  if ¬allPresent then
    ["Insufficient keypoints detected for squat evaluation. Ensure full body is visible."]
  else
    let ls := leftShoulder.getD dummyKp
    let rs := rightShoulder.getD dummyKp
    let lh := leftHip.getD dummyKp
    let rh := rightHip.getD dummyKp
    let lk := leftKnee.getD dummyKp
    let rk := rightKnee.getD dummyKp
    let la := leftAnkle.getD dummyKp
    let ra := rightAnkle.getD dummyKp
    let leftBackAngle := calculateAngle (kpVal ls) (kpVal lh) (kpVal lk)
    let rightBackAngle := calculateAngle (kpVal rs) (kpVal rh) (kpVal rk)
    (if lk.x < la.x then ["Left knee over toe."] else []) ++
    (if rk.x > ra.x then ["Right knee over toe."] else []) ++
    (if leftBackAngle < 150 ∨ rightBackAngle < 150 then
      [hunchedString leftBackAngle rightBackAngle] else [])

/-- The inline `evaluateDeskSittingPosture` revision of `server.js`: its
spine computation passes the number `leftHip.y + 0.1` (not a point) as
third argument to `calculateAngle`. -/
noncomputable def serverEvaluateDeskSittingPosture (rawKeypoints : List Keypoint) : List String :=
  let minConfidence : ℝ := 0.5
  let nose := findKeypoint rawKeypoints "nose"
  let leftEar := findKeypoint rawKeypoints "left_ear"
  let rightEar := findKeypoint rawKeypoints "right_ear"
  let leftShoulder := findKeypoint rawKeypoints "left_shoulder"
  let rightShoulder := findKeypoint rawKeypoints "right_shoulder"
  let leftHip := findKeypoint rawKeypoints "left_hip"
  let rightHip := findKeypoint rawKeypoints "right_hip"
  let allPresent : Prop := ∀ kp ∈ [nose, leftShoulder, rightShoulder, leftHip, rightHip],
      ∃ k, kp = some k ∧ k.score > minConfidence
  if ¬allPresent then
    ["Insufficient keypoints detected for desk posture evaluation. Ensure upper body is visible."]
  else
    let n := nose.getD dummyKp
    let ls := leftShoulder.getD dummyKp
    let rs := rightShoulder.getD dummyKp
    let lh := leftHip.getD dummyKp
    let rh := rightHip.getD dummyKp
    let neckAngleLeft := calculateAngle (kpVal (leftEar.getD n)) (kpVal ls) (kpVal lh)
    let neckAngleRight := calculateAngle (kpVal (rightEar.getD n)) (kpVal rs) (kpVal rh)
    let leftSpineAngle := calculateAngle (kpVal ls) (kpVal lh) (.num (lh.y + 0.1))
    let rightSpineAngle := calculateAngle (kpVal rs) (kpVal rh) (.num (rh.y + 0.1))
    (if neckAngleLeft < 150 ∨ neckAngleRight < 150 then
      [neckString neckAngleLeft neckAngleRight] else []) ++
    (if leftSpineAngle < 160 ∨ rightSpineAngle < 160 then
      [spineString leftSpineAngle rightSpineAngle] else [])

/-- The activity dispatch of `socket/socketHandler.js` on a `keypointsData`
event: select the evaluator by `postureType`. -/
noncomputable def evaluatePosture (keypoints : List Keypoint) (postureType : String) : List String :=
  if postureType = "squat" then evaluateSquatPosture keypoints
  else if postureType = "desk" then evaluateDeskSittingPosture keypoints
  else ["Unknown posture type."]

/-- Required squat joints, in the order the controller gathers them. -/
def squatRequiredJoints : List String :=
  ["left_shoulder", "right_shoulder", "left_hip", "right_hip",
   "left_knee", "right_knee", "left_ankle", "right_ankle"]

/-- Desk joints the controller's confidence gate checks. -/
def deskRequiredJoints : List String :=
  ["nose", "left_shoulder", "right_shoulder", "left_hip", "right_hip"]

/-! ### String helper lemmas -/

lemma firstCharOfAppend (p s : String) (c : Char) (hc : p.data.head? = some c) :
    (p ++ s).data.head? = some c := by
  show (p.data ++ s.data).head? = some c
  cases hp : p.data with
  | nil => rw [hp] at hc; cases hc
  | cons a as => rw [hp] at hc; simpa using hc

lemma ne_of_firstChar (a b : String) (c d : Char) (hc : a.data.head? = some c)
    (hd : b.data.head? = some d) (hcd : c ≠ d) : a ≠ b := by
  intro h
  rw [h, hd] at hc
  exact hcd (Option.some_injective _ hc).symm

lemma hunchedString_length (a b : ℝ) : 35 ≤ (hunchedString a b).length := by
  unfold hunchedString
  rw [String.length_append, String.length_append, String.length_append, String.length_append]
  have h : ("Hunched back detected (Back angle: ").length = 35 := by decide
  omega

lemma hunchedString_ne_of_short (a b : ℝ) (s : String) (hs : s.length < 35) :
    hunchedString a b ≠ s := by
  intro h
  have h2 := hunchedString_length a b
  rw [h] at h2
  omega

lemma neckString_head (a b : ℝ) : (neckString a b).data.head? = some 'N' := by
  unfold neckString
  exact firstCharOfAppend _ _ _ (firstCharOfAppend _ _ _ (firstCharOfAppend _ _ _
    (firstCharOfAppend _ _ _ (by decide))))

lemma spineString_head (a b : ℝ) : (spineString a b).data.head? = some 'B' := by
  unfold spineString
  exact firstCharOfAppend _ _ _ (firstCharOfAppend _ _ _ (firstCharOfAppend _ _ _
    (firstCharOfAppend _ _ _ (by decide))))

lemma neckString_ne_spineString (a b c d : ℝ) : neckString a b ≠ spineString c d :=
  ne_of_firstChar _ _ 'N' 'B' (neckString_head a b) (spineString_head c d) (by decide)

/-! ### Structural characterizations of the evaluators past their gates -/

lemma evaluateSquatPosture_gate_passed
    (kps : List Keypoint) (ls rs lh rh lk rk la ra : Keypoint)
    (hls : findKeypoint kps "left_shoulder" = some ls)
    (hrs : findKeypoint kps "right_shoulder" = some rs)
    (hlh : findKeypoint kps "left_hip" = some lh)
    (hrh : findKeypoint kps "right_hip" = some rh)
    (hlk : findKeypoint kps "left_knee" = some lk)
    (hrk : findKeypoint kps "right_knee" = some rk)
    (hla : findKeypoint kps "left_ankle" = some la)
    (hra : findKeypoint kps "right_ankle" = some ra)
    (hsc : ls.score > 0.2 ∧ rs.score > 0.2 ∧ lh.score > 0.2 ∧ rh.score > 0.2 ∧
           lk.score > 0.2 ∧ rk.score > 0.2 ∧ la.score > 0.2 ∧ ra.score > 0.2) :
    evaluateSquatPosture kps =
      (if lk.x < la.x then ["Left knee over toe."] else []) ++
      (if rk.x > ra.x then ["Right knee over toe."] else []) ++
      (if calculateAngle (kpVal ls) (kpVal lh) (kpVal lk) < 150 ∨
          calculateAngle (kpVal rs) (kpVal rh) (kpVal rk) < 150 then
        [hunchedString (calculateAngle (kpVal ls) (kpVal lh) (kpVal lk))
          (calculateAngle (kpVal rs) (kpVal rh) (kpVal rk))] else []) := by
  unfold evaluateSquatPosture
  rw [hls, hrs, hlh, hrh, hlk, hrk, hla, hra]
  have hall : ∀ kp ∈ [some ls, some rs, some lh, some rh, some lk, some rk, some la, some ra],
      ∃ k, kp = some k ∧ k.score > (0.2 : ℝ) := by
    intro kp hkp
    simp only [List.mem_cons, List.not_mem_nil, or_false] at hkp
    rcases hkp with h|h|h|h|h|h|h|h <;> subst h
    exacts [⟨ls, rfl, hsc.1⟩, ⟨rs, rfl, hsc.2.1⟩, ⟨lh, rfl, hsc.2.2.1⟩, ⟨rh, rfl, hsc.2.2.2.1⟩,
      ⟨lk, rfl, hsc.2.2.2.2.1⟩, ⟨rk, rfl, hsc.2.2.2.2.2.1⟩, ⟨la, rfl, hsc.2.2.2.2.2.2.1⟩,
      ⟨ra, rfl, hsc.2.2.2.2.2.2.2⟩]
  rw [if_neg (not_not_intro hall)]
  simp only [Option.getD_some]

lemma gate_contra {kps : List Keypoint} {name : String} {θ : ℝ} {l : List (Option Keypoint)}
    (hmem : findKeypoint kps name ∈ l)
    (hall : ∀ kp ∈ l, ∃ k, kp = some k ∧ k.score > θ)
    (hlow : ∀ k, findKeypoint kps name = some k → k.score ≤ θ) : False := by
  obtain ⟨k, hk, hs⟩ := hall _ hmem
  exact absurd hs (not_lt.mpr (hlow k hk))

lemma evaluateSquatPosture_gate_failed (kps : List Keypoint)
    (h : ∃ name ∈ squatRequiredJoints, ∀ k, findKeypoint kps name = some k → k.score ≤ 0.2) :
    evaluateSquatPosture kps =
      ["Insufficient keypoints detected for squat evaluation. Ensure full body is visible."] := by
  have hnall : ¬ ∀ kp ∈ [findKeypoint kps "left_shoulder", findKeypoint kps "right_shoulder",
      findKeypoint kps "left_hip", findKeypoint kps "right_hip", findKeypoint kps "left_knee",
      findKeypoint kps "right_knee", findKeypoint kps "left_ankle", findKeypoint kps "right_ankle"],
      ∃ k, kp = some k ∧ k.score > (0.2 : ℝ) := by
    intro hall
    obtain ⟨name, hmem, hlow⟩ := h
    simp only [squatRequiredJoints, List.mem_cons, List.not_mem_nil, or_false] at hmem
    rcases hmem with h1|h1|h1|h1|h1|h1|h1|h1 <;> subst h1 <;>
      exact gate_contra (by simp) hall hlow
  unfold evaluateSquatPosture
  rw [if_pos hnall]

lemma evaluateDeskSittingPosture_gate_failed (kps : List Keypoint)
    (h : ∃ name ∈ deskRequiredJoints, ∀ k, findKeypoint kps name = some k → k.score ≤ 0.5) :
    evaluateDeskSittingPosture kps =
      ["Insufficient keypoints detected for desk posture evaluation. Ensure upper body is visible."] := by
  have hnall : ¬ ∀ kp ∈ [findKeypoint kps "nose", findKeypoint kps "left_shoulder",
      findKeypoint kps "right_shoulder", findKeypoint kps "left_hip", findKeypoint kps "right_hip"],
      ∃ k, kp = some k ∧ k.score > (0.5 : ℝ) := by
    intro hall
    obtain ⟨name, hmem, hlow⟩ := h
    simp only [deskRequiredJoints, List.mem_cons, List.not_mem_nil, or_false] at hmem
    rcases hmem with h1|h1|h1|h1|h1 <;> subst h1 <;>
      exact gate_contra (by simp) hall hlow
  unfold evaluateDeskSittingPosture
  rw [if_pos hnall]

lemma evaluateDeskSittingPosture_gate_passed
    (kps : List Keypoint) (n ls rs lh rh : Keypoint) (earL earR : Option Keypoint)
    (hn : findKeypoint kps "nose" = some n)
    (hel : findKeypoint kps "left_ear" = earL)
    (her : findKeypoint kps "right_ear" = earR)
    (hls : findKeypoint kps "left_shoulder" = some ls)
    (hrs : findKeypoint kps "right_shoulder" = some rs)
    (hlh : findKeypoint kps "left_hip" = some lh)
    (hrh : findKeypoint kps "right_hip" = some rh)
    (hsc : n.score > 0.5 ∧ ls.score > 0.5 ∧ rs.score > 0.5 ∧ lh.score > 0.5 ∧ rh.score > 0.5) :
    evaluateDeskSittingPosture kps =
      (if calculateAngle (kpVal (earL.getD n)) (kpVal ls) (kpVal lh) < 150 ∨
          calculateAngle (kpVal (earR.getD n)) (kpVal rs) (kpVal rh) < 150 then
        [neckString (calculateAngle (kpVal (earL.getD n)) (kpVal ls) (kpVal lh))
          (calculateAngle (kpVal (earR.getD n)) (kpVal rs) (kpVal rh))] else []) ++
      (if calculateAngle (kpVal ls) (kpVal lh) (.obj (some lh.x) (some (lh.y + 0.1))) < 160 ∨
          calculateAngle (kpVal rs) (kpVal rh) (.obj (some rh.x) (some (rh.y + 0.1))) < 160 then
        [spineString (calculateAngle (kpVal ls) (kpVal lh) (.obj (some lh.x) (some (lh.y + 0.1))))
          (calculateAngle (kpVal rs) (kpVal rh) (.obj (some rh.x) (some (rh.y + 0.1))))]
        else []) := by
  unfold evaluateDeskSittingPosture
  rw [hn, hel, her, hls, hrs, hlh, hrh]
  have hall : ∀ kp ∈ [some n, some ls, some rs, some lh, some rh],
      ∃ k, kp = some k ∧ k.score > (0.5 : ℝ) := by
    intro kp hkp
    simp only [List.mem_cons, List.not_mem_nil, or_false] at hkp
    rcases hkp with h|h|h|h|h <;> subst h
    exacts [⟨n, rfl, hsc.1⟩, ⟨ls, rfl, hsc.2.1⟩, ⟨rs, rfl, hsc.2.2.1⟩, ⟨lh, rfl, hsc.2.2.2.1⟩,
      ⟨rh, rfl, hsc.2.2.2.2⟩]
  rw [if_neg (not_not_intro hall)]
  simp only [Option.getD_some]

lemma serverEvaluateSquatPosture_gate_passed
    (kps : List Keypoint) (ls rs lh rh lk rk la ra : Keypoint)
    (hls : findKeypoint kps "left_shoulder" = some ls)
    (hrs : findKeypoint kps "right_shoulder" = some rs)
    (hlh : findKeypoint kps "left_hip" = some lh)
    (hrh : findKeypoint kps "right_hip" = some rh)
    (hlk : findKeypoint kps "left_knee" = some lk)
    (hrk : findKeypoint kps "right_knee" = some rk)
    (hla : findKeypoint kps "left_ankle" = some la)
    (hra : findKeypoint kps "right_ankle" = some ra)
    (hsc : ls.score > 0.01 ∧ rs.score > 0.01 ∧ lh.score > 0.01 ∧ rh.score > 0.01 ∧
           lk.score > 0.01 ∧ rk.score > 0.01 ∧ la.score > 0.01 ∧ ra.score > 0.01) :
    serverEvaluateSquatPosture kps =
      (if lk.x < la.x then ["Left knee over toe."] else []) ++
      (if rk.x > ra.x then ["Right knee over toe."] else []) ++
      (if calculateAngle (kpVal ls) (kpVal lh) (kpVal lk) < 150 ∨
          calculateAngle (kpVal rs) (kpVal rh) (kpVal rk) < 150 then
        [hunchedString (calculateAngle (kpVal ls) (kpVal lh) (kpVal lk))
          (calculateAngle (kpVal rs) (kpVal rh) (kpVal rk))] else []) := by
  unfold serverEvaluateSquatPosture
  rw [hls, hrs, hlh, hrh, hlk, hrk, hla, hra]
  have hall : ∀ kp ∈ [some ls, some rs, some lh, some rh, some lk, some rk, some la, some ra],
      ∃ k, kp = some k ∧ k.score > (0.01 : ℝ) := by
    intro kp hkp
    simp only [List.mem_cons, List.not_mem_nil, or_false] at hkp
    rcases hkp with h|h|h|h|h|h|h|h <;> subst h
    exacts [⟨ls, rfl, hsc.1⟩, ⟨rs, rfl, hsc.2.1⟩, ⟨lh, rfl, hsc.2.2.1⟩, ⟨rh, rfl, hsc.2.2.2.1⟩,
      ⟨lk, rfl, hsc.2.2.2.2.1⟩, ⟨rk, rfl, hsc.2.2.2.2.2.1⟩, ⟨la, rfl, hsc.2.2.2.2.2.2.1⟩,
      ⟨ra, rfl, hsc.2.2.2.2.2.2.2⟩]
  rw [if_neg (not_not_intro hall)]
  simp only [Option.getD_some]

lemma serverEvaluateDeskSittingPosture_gate_passed
    (kps : List Keypoint) (n ls rs lh rh : Keypoint) (earL earR : Option Keypoint)
    (hn : findKeypoint kps "nose" = some n)
    (hel : findKeypoint kps "left_ear" = earL)
    (her : findKeypoint kps "right_ear" = earR)
    (hls : findKeypoint kps "left_shoulder" = some ls)
    (hrs : findKeypoint kps "right_shoulder" = some rs)
    (hlh : findKeypoint kps "left_hip" = some lh)
    (hrh : findKeypoint kps "right_hip" = some rh)
    (hsc : n.score > 0.5 ∧ ls.score > 0.5 ∧ rs.score > 0.5 ∧ lh.score > 0.5 ∧ rh.score > 0.5) :
    serverEvaluateDeskSittingPosture kps =
      (if calculateAngle (kpVal (earL.getD n)) (kpVal ls) (kpVal lh) < 150 ∨
          calculateAngle (kpVal (earR.getD n)) (kpVal rs) (kpVal rh) < 150 then
        [neckString (calculateAngle (kpVal (earL.getD n)) (kpVal ls) (kpVal lh))
          (calculateAngle (kpVal (earR.getD n)) (kpVal rs) (kpVal rh))] else []) ++
      (if calculateAngle (kpVal ls) (kpVal lh) (.num (lh.y + 0.1)) < 160 ∨
          calculateAngle (kpVal rs) (kpVal rh) (.num (rh.y + 0.1)) < 160 then
        [spineString (calculateAngle (kpVal ls) (kpVal lh) (.num (lh.y + 0.1)))
          (calculateAngle (kpVal rs) (kpVal rh) (.num (rh.y + 0.1)))]
        else []) := by
  unfold serverEvaluateDeskSittingPosture
  rw [hn, hel, her, hls, hrs, hlh, hrh]
  have hall : ∀ kp ∈ [some n, some ls, some rs, some lh, some rh],
      ∃ k, kp = some k ∧ k.score > (0.5 : ℝ) := by
    intro kp hkp
    simp only [List.mem_cons, List.not_mem_nil, or_false] at hkp
    rcases hkp with h|h|h|h|h <;> subst h
    exacts [⟨n, rfl, hsc.1⟩, ⟨ls, rfl, hsc.2.1⟩, ⟨rs, rfl, hsc.2.2.1⟩, ⟨lh, rfl, hsc.2.2.2.1⟩,
      ⟨rh, rfl, hsc.2.2.2.2⟩]
  rw [if_neg (not_not_intro hall)]
  simp only [Option.getD_some]

lemma serverEvaluateSquatPosture_gate_failed (kps : List Keypoint)
    (h : ∃ name ∈ squatRequiredJoints, ∀ k, findKeypoint kps name = some k → k.score ≤ 0.01) :
    serverEvaluateSquatPosture kps =
      ["Insufficient keypoints detected for squat evaluation. Ensure full body is visible."] := by
  have hnall : ¬ ∀ kp ∈ [findKeypoint kps "left_shoulder", findKeypoint kps "right_shoulder",
      findKeypoint kps "left_hip", findKeypoint kps "right_hip", findKeypoint kps "left_knee",
      findKeypoint kps "right_knee", findKeypoint kps "left_ankle", findKeypoint kps "right_ankle"],
      ∃ k, kp = some k ∧ k.score > (0.01 : ℝ) := by
    intro hall
    obtain ⟨name, hmem, hlow⟩ := h
    simp only [squatRequiredJoints, List.mem_cons, List.not_mem_nil, or_false] at hmem
    rcases hmem with h1|h1|h1|h1|h1|h1|h1|h1 <;> subst h1 <;>
      exact gate_contra (by simp) hall hlow
  unfold serverEvaluateSquatPosture
  rw [if_pos hnall]

lemma serverEvaluateDeskSittingPosture_gate_failed (kps : List Keypoint)
    (h : ∃ name ∈ deskRequiredJoints, ∀ k, findKeypoint kps name = some k → k.score ≤ 0.5) :
    serverEvaluateDeskSittingPosture kps =
      ["Insufficient keypoints detected for desk posture evaluation. Ensure upper body is visible."] := by
  have hnall : ¬ ∀ kp ∈ [findKeypoint kps "nose", findKeypoint kps "left_shoulder",
      findKeypoint kps "right_shoulder", findKeypoint kps "left_hip", findKeypoint kps "right_hip"],
      ∃ k, kp = some k ∧ k.score > (0.5 : ℝ) := by
    intro hall
    obtain ⟨name, hmem, hlow⟩ := h
    simp only [deskRequiredJoints, List.mem_cons, List.not_mem_nil, or_false] at hmem
    rcases hmem with h1|h1|h1|h1|h1 <;> subst h1 <;>
      exact gate_contra (by simp) hall hlow
  unfold serverEvaluateDeskSittingPosture
  rw [if_pos hnall]

/-! ### Angle calculator helper lemmas -/

lemma calculateAngle_num_third (p1 p2 : JVal) (r : ℝ) : calculateAngle p1 p2 (.num r) = 0 := by
  unfold calculateAngle
  rw [if_pos]
  exact Or.inr (Or.inr (Or.inr (Or.inr (Or.inr (Or.inr (Or.inr (Or.inl rfl)))))))

lemma sum_sq_pos_of_ne {a b : ℝ} (h : a ≠ 0 ∨ b ≠ 0) : 0 < a * a + b * b := by
  rcases h with h | h
  · have ha := mul_self_pos.mpr h
    have hb := mul_self_nonneg b
    linarith
  · have ha := mul_self_nonneg a
    have hb := mul_self_pos.mpr h
    linarith

lemma calculateAngle_formula (x1 y1 x2 y2 x3 y3 : ℝ)
    (h1 : x1 - x2 ≠ 0 ∨ y1 - y2 ≠ 0) (h2 : x3 - x2 ≠ 0 ∨ y3 - y2 ≠ 0) :
    calculateAngle (.obj (some x1) (some y1)) (.obj (some x2) (some y2))
        (.obj (some x3) (some y3)) =
      Real.arccos (min (max
        (((x1 - x2) * (x3 - x2) + (y1 - y2) * (y3 - y2)) /
          (Real.sqrt ((x1 - x2) * (x1 - x2) + (y1 - y2) * (y1 - y2)) *
           Real.sqrt ((x3 - x2) * (x3 - x2) + (y3 - y2) * (y3 - y2)))) (-1)) 1) *
        (180 / Real.pi) := by
  unfold calculateAngle
  rw [if_neg (by simp [JVal.truthy, JVal.xCoord, JVal.yCoord])]
  simp only [JVal.xCoord, JVal.yCoord, Option.getD_some]
  rw [if_neg]
  push_neg
  constructor
  · intro hz
    rw [Real.sqrt_eq_zero'] at hz
    exact absurd hz (not_le.mpr (sum_sq_pos_of_ne h1))
  · intro hz
    rw [Real.sqrt_eq_zero'] at hz
    exact absurd hz (not_le.mpr (sum_sq_pos_of_ne h2))

lemma degrees_bounds (c : ℝ) : 0 ≤ Real.arccos c * (180 / Real.pi) ∧
    Real.arccos c * (180 / Real.pi) ≤ 180 := by
  have hpi := Real.pi_pos
  constructor
  · exact mul_nonneg (Real.arccos_nonneg c) (by positivity)
  · have h1 : Real.arccos c * (180 / Real.pi) ≤ Real.pi * (180 / Real.pi) :=
      mul_le_mul_of_nonneg_right (Real.arccos_le_pi c) (by positivity)
    calc Real.arccos c * (180 / Real.pi) ≤ Real.pi * (180 / Real.pi) := h1
      _ = 180 := by field_simp

lemma calculateAngle_vertical (x ya yb yc : ℝ) (h1 : ya < yb) (h2 : yb < yc) :
    calculateAngle (.obj (some x) (some ya)) (.obj (some x) (some yb))
      (.obj (some x) (some yc)) = 180 := by
  rw [calculateAngle_formula x ya x yb x yc (Or.inr (by intro h; linarith))
    (Or.inr (by intro h; linarith))]
  have hm1 : Real.sqrt ((x - x) * (x - x) + (ya - yb) * (ya - yb)) = yb - ya := by
    rw [show (x - x) * (x - x) + (ya - yb) * (ya - yb) = (yb - ya) ^ 2 by ring]
    exact Real.sqrt_sq (by linarith)
  have hm2 : Real.sqrt ((x - x) * (x - x) + (yc - yb) * (yc - yb)) = yc - yb := by
    rw [show (x - x) * (x - x) + (yc - yb) * (yc - yb) = (yc - yb) ^ 2 by ring]
    exact Real.sqrt_sq (by linarith)
  rw [hm1, hm2]
  have hq : ((x - x) * (x - x) + (ya - yb) * (yc - yb)) / ((yb - ya) * (yc - yb)) = -1 := by
    rw [div_eq_iff (by nlinarith : (yb - ya) * (yc - yb) ≠ 0)]
    ring
  rw [hq, show max (-1 : ℝ) (-1) = -1 from max_self _,
    show min (-1 : ℝ) 1 = -1 from min_eq_left (by norm_num), Real.arccos_neg_one]
  have := Real.pi_ne_zero
  field_simp

/-! ### Claim theorems -/

/-- C1: whenever some required joint of the selected activity is absent or has
score at or below the activity's confidence threshold (0.2 for squat over the
shoulders, hips, knees and ankles; 0.5 for desk over nose, shoulders and hips),
the evaluator returns exactly the one-element list containing the
activity-specific insufficient-keypoints issue string, so no angle-based issue
is produced. -/
theorem confidence_gate_insufficient (kps1 kps2 : List Keypoint)
    (h1 : ∃ name ∈ squatRequiredJoints, ∀ k, findKeypoint kps1 name = some k → k.score ≤ 0.2)
    (h2 : ∃ name ∈ deskRequiredJoints, ∀ k, findKeypoint kps2 name = some k → k.score ≤ 0.5) :
    evaluateSquatPosture kps1 =
      ["Insufficient keypoints detected for squat evaluation. Ensure full body is visible."] ∧
    evaluateDeskSittingPosture kps2 =
      ["Insufficient keypoints detected for desk posture evaluation. Ensure upper body is visible."] :=
  ⟨evaluateSquatPosture_gate_failed kps1 h1, evaluateDeskSittingPosture_gate_failed kps2 h2⟩

/-- Witness for C1: the empty keypoint set has every required joint absent, and
both evaluators return exactly their insufficient-keypoints issue. -/
theorem confidence_gate_insufficient_witness :
    evaluateSquatPosture [] =
      ["Insufficient keypoints detected for squat evaluation. Ensure full body is visible."] ∧
    evaluateDeskSittingPosture [] =
      ["Insufficient keypoints detected for desk posture evaluation. Ensure upper body is visible."] :=
  confidence_gate_insufficient [] []
    ⟨"left_shoulder", by simp [squatRequiredJoints], by intro k hk; simp [findKeypoint] at hk⟩
    ⟨"nose", by simp [deskRequiredJoints], by intro k hk; simp [findKeypoint] at hk⟩

/-- C2: on three present points with numeric coordinates whose limb vectors
both have nonzero magnitude, the angle calculator computes the angle at the
vertex by the dot-product / magnitude formula with the cosine argument clamped
to `[-1, 1]` before the inverse cosine, and the resulting degree value lies in
`[0, 180]`. -/
theorem angle_formula_and_bounds (x1 y1 x2 y2 x3 y3 : ℝ)
    (h1 : x1 - x2 ≠ 0 ∨ y1 - y2 ≠ 0) (h2 : x3 - x2 ≠ 0 ∨ y3 - y2 ≠ 0) :
    calculateAngle (.obj (some x1) (some y1)) (.obj (some x2) (some y2))
        (.obj (some x3) (some y3)) =
      Real.arccos (min (max
        (((x1 - x2) * (x3 - x2) + (y1 - y2) * (y3 - y2)) /
          (Real.sqrt ((x1 - x2) * (x1 - x2) + (y1 - y2) * (y1 - y2)) *
           Real.sqrt ((x3 - x2) * (x3 - x2) + (y3 - y2) * (y3 - y2)))) (-1)) 1) *
        (180 / Real.pi) ∧
    (0 ≤ calculateAngle (.obj (some x1) (some y1)) (.obj (some x2) (some y2))
        (.obj (some x3) (some y3)) ∧
     calculateAngle (.obj (some x1) (some y1)) (.obj (some x2) (some y2))
        (.obj (some x3) (some y3)) ≤ 180) := by
  have hf := calculateAngle_formula x1 y1 x2 y2 x3 y3 h1 h2
  refine ⟨hf, ?_⟩
  rw [hf]
  exact degrees_bounds _

/-- Witness for C2: the angle at the origin between `(1,0)` and `(0,1)`
is well defined and lies in `[0, 180]`. -/
theorem angle_formula_and_bounds_witness :
    ((1 : ℝ) - 0 ≠ 0 ∨ (0 : ℝ) - 0 ≠ 0) ∧ ((0 : ℝ) - 0 ≠ 0 ∨ (1 : ℝ) - 0 ≠ 0) ∧
    (0 ≤ calculateAngle (.obj (some 1) (some 0)) (.obj (some 0) (some 0))
        (.obj (some 0) (some 1)) ∧
     calculateAngle (.obj (some 1) (some 0)) (.obj (some 0) (some 0))
        (.obj (some 0) (some 1)) ≤ 180) :=
  ⟨by norm_num, by norm_num,
    (angle_formula_and_bounds 1 0 0 0 0 1 (by norm_num) (by norm_num)).2⟩

/-- C3: whenever an argument of the angle calculator is absent (falsy), or
lacks an `x` or `y` coordinate, or either limb vector has zero magnitude
(including all three points coincident), the calculator returns exactly `0`;
being a total real-valued function it never yields NaN or undefined and never
throws. -/
theorem calculateAngle_degenerate_zero (p1 p2 p3 : JVal)
    (h : ¬p1.truthy ∨ ¬p2.truthy ∨ ¬p3.truthy ∨
         p1.xCoord = none ∨ p1.yCoord = none ∨ p2.xCoord = none ∨ p2.yCoord = none ∨
         p3.xCoord = none ∨ p3.yCoord = none ∨
         (∃ x1 y1 x2 y2 x3 y3, p1 = .obj (some x1) (some y1) ∧ p2 = .obj (some x2) (some y2) ∧
           p3 = .obj (some x3) (some y3) ∧ ((x1 = x2 ∧ y1 = y2) ∨ (x3 = x2 ∧ y3 = y2)))) :
    calculateAngle p1 p2 p3 = 0 := by
  rcases h with h|h|h|h|h|h|h|h|h|h
  · unfold calculateAngle; rw [if_pos (by tauto)]
  · unfold calculateAngle; rw [if_pos (by tauto)]
  · unfold calculateAngle; rw [if_pos (by tauto)]
  · unfold calculateAngle; rw [if_pos (by tauto)]
  · unfold calculateAngle; rw [if_pos (by tauto)]
  · unfold calculateAngle; rw [if_pos (by tauto)]
  · unfold calculateAngle; rw [if_pos (by tauto)]
  · unfold calculateAngle; rw [if_pos (by tauto)]
  · unfold calculateAngle; rw [if_pos (by tauto)]
  · obtain ⟨x1, y1, x2, y2, x3, y3, e1, e2, e3, hz⟩ := h
    subst e1; subst e2; subst e3
    unfold calculateAngle
    rw [if_neg (by simp [JVal.truthy, JVal.xCoord, JVal.yCoord])]
    simp only [JVal.xCoord, JVal.yCoord, Option.getD_some]
    rcases hz with ⟨hx, hy⟩ | ⟨hx, hy⟩ <;> subst hx <;> subst hy
    · rw [if_pos (Or.inl (by simp))]
    · rw [if_pos (Or.inr (by simp))]

/-- Witness for C3: with all three points coincident at `(0.5, 0.5)` the
calculator returns `0`. -/
theorem calculateAngle_degenerate_zero_witness :
    calculateAngle (.obj (some 0.5) (some 0.5)) (.obj (some 0.5) (some 0.5))
      (.obj (some 0.5) (some 0.5)) = 0 :=
  calculateAngle_degenerate_zero _ _ _
    (by
      refine Or.inr (Or.inr (Or.inr (Or.inr (Or.inr (Or.inr (Or.inr (Or.inr (Or.inr ?_))))))))
      exact ⟨0.5, 0.5, 0.5, 0.5, 0.5, 0.5, rfl, rfl, rfl, Or.inl ⟨rfl, rfl⟩⟩)

/-- C8: for any activity tag other than `"squat"` and `"desk"`, the dispatcher
returns exactly the single-element issue list `["Unknown posture type."]` and
invokes neither evaluator. -/
theorem unknown_posture_type (kps : List Keypoint) (t : String)
    (h1 : t ≠ "squat") (h2 : t ≠ "desk") :
    evaluatePosture kps t = ["Unknown posture type."] := by
  unfold evaluatePosture
  rw [if_neg h1, if_neg h2]

/-- Witness for C8: the tag `"yoga"` on any keypoint set yields exactly
`["Unknown posture type."]`. -/
theorem unknown_posture_type_witness :
    evaluatePosture [] "yoga" = ["Unknown posture type."] :=
  unknown_posture_type [] "yoga" (by decide) (by decide)

lemma mem_ite_singleton {α : Type} (a b : α) (c : Prop) [Decidable c] :
    a ∈ (if c then [b] else []) ↔ c ∧ a = b := by
  by_cases h : c <;> simp [h]

lemma hunchedString_not_mem_knee (a b : ℝ) (c1 c2 : Prop) [Decidable c1] [Decidable c2] :
    hunchedString a b ∉ ((if c1 then ["Left knee over toe."] else []) ++
      (if c2 then ["Right knee over toe."] else [])) := by
  intro hm
  rcases List.mem_append.mp hm with hm | hm
  · by_cases h : c1
    · rw [if_pos h] at hm
      simp only [List.mem_singleton] at hm
      exact hunchedString_ne_of_short a b _ (by decide) hm
    · rw [if_neg h] at hm
      cases hm
  · by_cases h : c2
    · rw [if_pos h] at hm
      simp only [List.mem_singleton] at hm
      exact hunchedString_ne_of_short a b _ (by decide) hm
    · rw [if_neg h] at hm
      cases hm

/-- C4: past the squat confidence gate, "Left knee over toe." is reported iff
the left knee's x-coordinate is strictly below the left ankle's, "Right knee
over toe." iff the right knee's x-coordinate is strictly above the right
ankle's, and the result lists the left issue, then the right issue, then any
hunched-back issue, in that order. -/
theorem squat_knee_over_toe
    (kps : List Keypoint) (ls rs lh rh lk rk la ra : Keypoint)
    (hls : findKeypoint kps "left_shoulder" = some ls)
    (hrs : findKeypoint kps "right_shoulder" = some rs)
    (hlh : findKeypoint kps "left_hip" = some lh)
    (hrh : findKeypoint kps "right_hip" = some rh)
    (hlk : findKeypoint kps "left_knee" = some lk)
    (hrk : findKeypoint kps "right_knee" = some rk)
    (hla : findKeypoint kps "left_ankle" = some la)
    (hra : findKeypoint kps "right_ankle" = some ra)
    (hsc : ls.score > 0.2 ∧ rs.score > 0.2 ∧ lh.score > 0.2 ∧ rh.score > 0.2 ∧
           lk.score > 0.2 ∧ rk.score > 0.2 ∧ la.score > 0.2 ∧ ra.score > 0.2) :
    ("Left knee over toe." ∈ evaluateSquatPosture kps ↔ lk.x < la.x) ∧
    ("Right knee over toe." ∈ evaluateSquatPosture kps ↔ rk.x > ra.x) ∧
    evaluateSquatPosture kps =
      (if lk.x < la.x then ["Left knee over toe."] else []) ++
      (if rk.x > ra.x then ["Right knee over toe."] else []) ++
      (if calculateAngle (kpVal ls) (kpVal lh) (kpVal lk) < 150 ∨
          calculateAngle (kpVal rs) (kpVal rh) (kpVal rk) < 150 then
        [hunchedString (calculateAngle (kpVal ls) (kpVal lh) (kpVal lk))
          (calculateAngle (kpVal rs) (kpVal rh) (kpVal rk))] else []) := by
  have hst := evaluateSquatPosture_gate_passed kps ls rs lh rh lk rk la ra
    hls hrs hlh hrh hlk hrk hla hra hsc
  refine ⟨?_, ?_, hst⟩
  · rw [hst]
    simp only [List.mem_append, mem_ite_singleton]
    constructor
    · rintro ((⟨hc, _⟩ | ⟨_, hL⟩) | ⟨_, hL⟩)
      · exact hc
      · exact absurd hL (by decide)
      · exact absurd hL.symm (hunchedString_ne_of_short _ _ _ (by decide))
    · intro hc
      exact Or.inl (Or.inl ⟨hc, trivial⟩)
  · rw [hst]
    simp only [List.mem_append, mem_ite_singleton]
    constructor
    · rintro ((⟨_, hL⟩ | ⟨hc, _⟩) | ⟨_, hL⟩)
      · exact absurd hL (by decide)
      · exact hc
      · exact absurd hL.symm (hunchedString_ne_of_short _ _ _ (by decide))
    · intro hc
      exact Or.inl (Or.inr ⟨hc, trivial⟩)

/-- C5: past the squat confidence gate, exactly one hunched-back issue — the
string embedding the two back angles rounded to zero decimals — is appended
after the knee issues iff the left or right back angle is below 150 degrees,
and otherwise no hunched-back issue of any angles appears. -/
theorem squat_hunched_back
    (kps : List Keypoint) (ls rs lh rh lk rk la ra : Keypoint)
    (hls : findKeypoint kps "left_shoulder" = some ls)
    (hrs : findKeypoint kps "right_shoulder" = some rs)
    (hlh : findKeypoint kps "left_hip" = some lh)
    (hrh : findKeypoint kps "right_hip" = some rh)
    (hlk : findKeypoint kps "left_knee" = some lk)
    (hrk : findKeypoint kps "right_knee" = some rk)
    (hla : findKeypoint kps "left_ankle" = some la)
    (hra : findKeypoint kps "right_ankle" = some ra)
    (hsc : ls.score > 0.2 ∧ rs.score > 0.2 ∧ lh.score > 0.2 ∧ rh.score > 0.2 ∧
           lk.score > 0.2 ∧ rk.score > 0.2 ∧ la.score > 0.2 ∧ ra.score > 0.2) :
    (evaluateSquatPosture kps).count
        (hunchedString (calculateAngle (kpVal ls) (kpVal lh) (kpVal lk))
          (calculateAngle (kpVal rs) (kpVal rh) (kpVal rk))) =
      (if calculateAngle (kpVal ls) (kpVal lh) (kpVal lk) < 150 ∨
          calculateAngle (kpVal rs) (kpVal rh) (kpVal rk) < 150 then 1 else 0) ∧
    evaluateSquatPosture kps =
      (if lk.x < la.x then ["Left knee over toe."] else []) ++
      (if rk.x > ra.x then ["Right knee over toe."] else []) ++
      (if calculateAngle (kpVal ls) (kpVal lh) (kpVal lk) < 150 ∨
          calculateAngle (kpVal rs) (kpVal rh) (kpVal rk) < 150 then
        [hunchedString (calculateAngle (kpVal ls) (kpVal lh) (kpVal lk))
          (calculateAngle (kpVal rs) (kpVal rh) (kpVal rk))] else []) ∧
    (¬(calculateAngle (kpVal ls) (kpVal lh) (kpVal lk) < 150 ∨
        calculateAngle (kpVal rs) (kpVal rh) (kpVal rk) < 150) →
      ∀ a b, hunchedString a b ∉ evaluateSquatPosture kps) := by
  have hst := evaluateSquatPosture_gate_passed kps ls rs lh rh lk rk la ra
    hls hrs hlh hrh hlk hrk hla hra hsc
  refine ⟨?_, hst, ?_⟩
  · rw [hst, List.count_append, List.count_eq_zero.mpr (hunchedString_not_mem_knee _ _ _ _)]
    by_cases hc : calculateAngle (kpVal ls) (kpVal lh) (kpVal lk) < 150 ∨
        calculateAngle (kpVal rs) (kpVal rh) (kpVal rk) < 150
    · rw [if_pos hc, if_pos hc]
      simp
    · rw [if_neg hc, if_neg hc]
      simp
  · intro hnc a b hmem
    rw [hst, if_neg hnc, List.append_nil] at hmem
    exact hunchedString_not_mem_knee a b _ _ hmem

/-- Witness squat keypoints: full body visible at score 0.9, the body vertical
(shoulders above hips above knees above ankles on one x line). -/
def lsW : Keypoint := ⟨"left_shoulder", 0.5, 0.1, 0.9⟩

def rsW : Keypoint := ⟨"right_shoulder", 0.5, 0.1, 0.9⟩

def lhW : Keypoint := ⟨"left_hip", 0.5, 0.4, 0.9⟩

def rhW : Keypoint := ⟨"right_hip", 0.5, 0.4, 0.9⟩

def lkW : Keypoint := ⟨"left_knee", 0.5, 0.7, 0.9⟩

def rkW : Keypoint := ⟨"right_knee", 0.5, 0.7, 0.9⟩

def laW : Keypoint := ⟨"left_ankle", 0.5, 0.9, 0.9⟩

def raW : Keypoint := ⟨"right_ankle", 0.5, 0.9, 0.9⟩

def squatW : List Keypoint := [lsW, rsW, lhW, rhW, lkW, rkW, laW, raW]

/-- Witness for C4: with knees at the same x as the ankles, neither
knee-over-toe issue appears. -/
theorem squat_knee_over_toe_witness :
    "Left knee over toe." ∉ evaluateSquatPosture squatW ∧
    "Right knee over toe." ∉ evaluateSquatPosture squatW := by
  have h := squat_knee_over_toe squatW lsW rsW lhW rhW lkW rkW laW raW
    rfl rfl rfl rfl rfl rfl rfl rfl
    (by norm_num [lsW, rsW, lhW, rhW, lkW, rkW, laW, raW])
  constructor
  · intro hm
    have hx := h.1.mp hm
    norm_num [lkW, laW] at hx
  · intro hm
    have hx := h.2.1.mp hm
    norm_num [rkW, raW] at hx

/-- Witness for C5: with both back angles equal to 180 degrees and knees over
ankles, the squat evaluator reports no issue at all. -/
theorem squat_hunched_back_witness : evaluateSquatPosture squatW = [] := by
  have h := squat_hunched_back squatW lsW rsW lhW rhW lkW rkW laW raW
    rfl rfl rfl rfl rfl rfl rfl rfl
    (by norm_num [lsW, rsW, lhW, rhW, lkW, rkW, laW, raW])
  have hL : calculateAngle (kpVal lsW) (kpVal lhW) (kpVal lkW) = 180 := by
    show calculateAngle (.obj (some 0.5) (some 0.1)) (.obj (some 0.5) (some 0.4))
      (.obj (some 0.5) (some 0.7)) = 180
    exact calculateAngle_vertical 0.5 0.1 0.4 0.7 (by norm_num) (by norm_num)
  have hR : calculateAngle (kpVal rsW) (kpVal rhW) (kpVal rkW) = 180 := by
    show calculateAngle (.obj (some 0.5) (some 0.1)) (.obj (some 0.5) (some 0.4))
      (.obj (some 0.5) (some 0.7)) = 180
    exact calculateAngle_vertical 0.5 0.1 0.4 0.7 (by norm_num) (by norm_num)
  rw [h.2.1, hL, hR]
  norm_num [lkW, laW, rkW, raW]

lemma neckString_count_spine (a b u v : ℝ) (c : Prop) [Decidable c] :
    (if c then [spineString u v] else []).count (neckString a b) = 0 := by
  rw [List.count_eq_zero]
  by_cases h : c
  · rw [if_pos h]
    simp only [List.mem_singleton]
    exact neckString_ne_spineString a b u v
  · rw [if_neg h]
    simp

lemma spineString_count_neck (a b u v : ℝ) (c : Prop) [Decidable c] :
    (if c then [neckString u v] else []).count (spineString a b) = 0 := by
  rw [List.count_eq_zero]
  by_cases h : c
  · rw [if_pos h]
    simp only [List.mem_singleton]
    exact (neckString_ne_spineString u v a b).symm
  · rw [if_neg h]
    simp

/-- C6: past the desk confidence gate, each side's neck angle is
`angle(ear-or-nose, shoulder, hip)`, the ear being used when present in the
set and the nose otherwise, and exactly one neck-bent issue embedding both
angles is emitted iff either side's angle is below 150 degrees. -/
theorem desk_neck_bend
    (kps : List Keypoint) (n ls rs lh rh : Keypoint) (earL earR : Option Keypoint)
    (hn : findKeypoint kps "nose" = some n)
    (hel : findKeypoint kps "left_ear" = earL)
    (her : findKeypoint kps "right_ear" = earR)
    (hls : findKeypoint kps "left_shoulder" = some ls)
    (hrs : findKeypoint kps "right_shoulder" = some rs)
    (hlh : findKeypoint kps "left_hip" = some lh)
    (hrh : findKeypoint kps "right_hip" = some rh)
    (hsc : n.score > 0.5 ∧ ls.score > 0.5 ∧ rs.score > 0.5 ∧ lh.score > 0.5 ∧ rh.score > 0.5) :
    (evaluateDeskSittingPosture kps).count
        (neckString (calculateAngle (kpVal (earL.getD n)) (kpVal ls) (kpVal lh))
          (calculateAngle (kpVal (earR.getD n)) (kpVal rs) (kpVal rh))) =
      (if calculateAngle (kpVal (earL.getD n)) (kpVal ls) (kpVal lh) < 150 ∨
          calculateAngle (kpVal (earR.getD n)) (kpVal rs) (kpVal rh) < 150 then 1 else 0) ∧
    evaluateDeskSittingPosture kps =
      (if calculateAngle (kpVal (earL.getD n)) (kpVal ls) (kpVal lh) < 150 ∨
          calculateAngle (kpVal (earR.getD n)) (kpVal rs) (kpVal rh) < 150 then
        [neckString (calculateAngle (kpVal (earL.getD n)) (kpVal ls) (kpVal lh))
          (calculateAngle (kpVal (earR.getD n)) (kpVal rs) (kpVal rh))] else []) ++
      (if calculateAngle (kpVal ls) (kpVal lh) (.obj (some lh.x) (some (lh.y + 0.1))) < 160 ∨
          calculateAngle (kpVal rs) (kpVal rh) (.obj (some rh.x) (some (rh.y + 0.1))) < 160 then
        [spineString (calculateAngle (kpVal ls) (kpVal lh) (.obj (some lh.x) (some (lh.y + 0.1))))
          (calculateAngle (kpVal rs) (kpVal rh) (.obj (some rh.x) (some (rh.y + 0.1))))]
        else []) ∧
    (¬(calculateAngle (kpVal (earL.getD n)) (kpVal ls) (kpVal lh) < 150 ∨
        calculateAngle (kpVal (earR.getD n)) (kpVal rs) (kpVal rh) < 150) →
      ∀ a b, neckString a b ∉ evaluateDeskSittingPosture kps) := by
  have hst := evaluateDeskSittingPosture_gate_passed kps n ls rs lh rh earL earR
    hn hel her hls hrs hlh hrh hsc
  refine ⟨?_, hst, ?_⟩
  · rw [hst, List.count_append, neckString_count_spine]
    by_cases hc : calculateAngle (kpVal (earL.getD n)) (kpVal ls) (kpVal lh) < 150 ∨
        calculateAngle (kpVal (earR.getD n)) (kpVal rs) (kpVal rh) < 150
    · rw [if_pos hc, if_pos hc]
      simp
    · rw [if_neg hc, if_neg hc]
      simp
  · intro hnc a b hmem
    rw [hst, if_neg hnc, List.nil_append] at hmem
    by_cases hc : calculateAngle (kpVal ls) (kpVal lh) (.obj (some lh.x) (some (lh.y + 0.1))) < 160 ∨
        calculateAngle (kpVal rs) (kpVal rh) (.obj (some rh.x) (some (rh.y + 0.1))) < 160
    · rw [if_pos hc] at hmem
      simp only [List.mem_singleton] at hmem
      exact neckString_ne_spineString a b _ _ hmem
    · rw [if_neg hc] at hmem
      cases hmem

/-- C7: past the desk confidence gate, each side's spine angle is
`angle(shoulder, hip, q)` with `q` the synthetic point at the hip's
x-coordinate and the hip's y-coordinate plus 0.1, and exactly one slouching
issue embedding both angles is emitted iff either side's spine angle is below
160 degrees. -/
theorem desk_spine_straightness
    (kps : List Keypoint) (n ls rs lh rh : Keypoint) (earL earR : Option Keypoint)
    (hn : findKeypoint kps "nose" = some n)
    (hel : findKeypoint kps "left_ear" = earL)
    (her : findKeypoint kps "right_ear" = earR)
    (hls : findKeypoint kps "left_shoulder" = some ls)
    (hrs : findKeypoint kps "right_shoulder" = some rs)
    (hlh : findKeypoint kps "left_hip" = some lh)
    (hrh : findKeypoint kps "right_hip" = some rh)
    (hsc : n.score > 0.5 ∧ ls.score > 0.5 ∧ rs.score > 0.5 ∧ lh.score > 0.5 ∧ rh.score > 0.5) :
    (evaluateDeskSittingPosture kps).count
        (spineString (calculateAngle (kpVal ls) (kpVal lh) (.obj (some lh.x) (some (lh.y + 0.1))))
          (calculateAngle (kpVal rs) (kpVal rh) (.obj (some rh.x) (some (rh.y + 0.1))))) =
      (if calculateAngle (kpVal ls) (kpVal lh) (.obj (some lh.x) (some (lh.y + 0.1))) < 160 ∨
          calculateAngle (kpVal rs) (kpVal rh) (.obj (some rh.x) (some (rh.y + 0.1))) < 160
        then 1 else 0) ∧
    evaluateDeskSittingPosture kps =
      (if calculateAngle (kpVal (earL.getD n)) (kpVal ls) (kpVal lh) < 150 ∨
          calculateAngle (kpVal (earR.getD n)) (kpVal rs) (kpVal rh) < 150 then
        [neckString (calculateAngle (kpVal (earL.getD n)) (kpVal ls) (kpVal lh))
          (calculateAngle (kpVal (earR.getD n)) (kpVal rs) (kpVal rh))] else []) ++
      (if calculateAngle (kpVal ls) (kpVal lh) (.obj (some lh.x) (some (lh.y + 0.1))) < 160 ∨
          calculateAngle (kpVal rs) (kpVal rh) (.obj (some rh.x) (some (rh.y + 0.1))) < 160 then
        [spineString (calculateAngle (kpVal ls) (kpVal lh) (.obj (some lh.x) (some (lh.y + 0.1))))
          (calculateAngle (kpVal rs) (kpVal rh) (.obj (some rh.x) (some (rh.y + 0.1))))]
        else []) ∧
    (¬(calculateAngle (kpVal ls) (kpVal lh) (.obj (some lh.x) (some (lh.y + 0.1))) < 160 ∨
        calculateAngle (kpVal rs) (kpVal rh) (.obj (some rh.x) (some (rh.y + 0.1))) < 160) →
      ∀ a b, spineString a b ∉ evaluateDeskSittingPosture kps) := by
  have hst := evaluateDeskSittingPosture_gate_passed kps n ls rs lh rh earL earR
    hn hel her hls hrs hlh hrh hsc
  refine ⟨?_, hst, ?_⟩
  · rw [hst, List.count_append, spineString_count_neck]
    by_cases hc : calculateAngle (kpVal ls) (kpVal lh) (.obj (some lh.x) (some (lh.y + 0.1))) < 160 ∨
        calculateAngle (kpVal rs) (kpVal rh) (.obj (some rh.x) (some (rh.y + 0.1))) < 160
    · rw [if_pos hc, if_pos hc]
      simp
    · rw [if_neg hc, if_neg hc]
      simp
  · intro hnc a b hmem
    rw [hst, if_neg hnc, List.append_nil] at hmem
    by_cases hc : calculateAngle (kpVal (earL.getD n)) (kpVal ls) (kpVal lh) < 150 ∨
        calculateAngle (kpVal (earR.getD n)) (kpVal rs) (kpVal rh) < 150
    · rw [if_pos hc] at hmem
      simp only [List.mem_singleton] at hmem
      exact (neckString_ne_spineString _ _ a b).symm hmem
    · rw [if_neg hc] at hmem
      cases hmem

/-- Witness desk keypoints (spec Scenario B): no ears, nose, shoulders and
hips vertically aligned at high confidence. -/
def noseW : Keypoint := ⟨"nose", 0.5, 0.1, 0.9⟩

def dlsW : Keypoint := ⟨"left_shoulder", 0.5, 0.3, 0.9⟩

def drsW : Keypoint := ⟨"right_shoulder", 0.5, 0.3, 0.9⟩

def dlhW : Keypoint := ⟨"left_hip", 0.5, 0.6, 0.9⟩

def drhW : Keypoint := ⟨"right_hip", 0.5, 0.6, 0.9⟩

def deskW : List Keypoint := [noseW, dlsW, drsW, dlhW, drhW]

/-- Witness for C6 (spec Scenario B): with the left ear absent and nose
(0.5, 0.1), shoulder (0.5, 0.3), hip (0.5, 0.6) collinear, the nose-fallback
neck angle is exactly 180 degrees and no issue is emitted at all. -/
theorem desk_neck_bend_witness :
    calculateAngle (kpVal noseW) (kpVal dlsW) (kpVal dlhW) = 180 ∧
    evaluateDeskSittingPosture deskW = [] := by
  have h := desk_neck_bend deskW noseW dlsW drsW dlhW drhW none none
    rfl rfl rfl rfl rfl rfl rfl
    (by norm_num [noseW, dlsW, drsW, dlhW, drhW])
  have hN : calculateAngle (kpVal noseW) (kpVal dlsW) (kpVal dlhW) = 180 := by
    show calculateAngle (.obj (some 0.5) (some 0.1)) (.obj (some 0.5) (some 0.3))
      (.obj (some 0.5) (some 0.6)) = 180
    exact calculateAngle_vertical 0.5 0.1 0.3 0.6 (by norm_num) (by norm_num)
  have hNR : calculateAngle (kpVal noseW) (kpVal drsW) (kpVal drhW) = 180 := by
    show calculateAngle (.obj (some 0.5) (some 0.1)) (.obj (some 0.5) (some 0.3))
      (.obj (some 0.5) (some 0.6)) = 180
    exact calculateAngle_vertical 0.5 0.1 0.3 0.6 (by norm_num) (by norm_num)
  have hSL : calculateAngle (kpVal dlsW) (kpVal dlhW)
      (.obj (some dlhW.x) (some (dlhW.y + 0.1))) = 180 := by
    show calculateAngle (.obj (some 0.5) (some 0.3)) (.obj (some 0.5) (some 0.6))
      (.obj (some 0.5) (some (0.6 + 0.1))) = 180
    exact calculateAngle_vertical 0.5 0.3 0.6 (0.6 + 0.1) (by norm_num) (by norm_num)
  have hSR : calculateAngle (kpVal drsW) (kpVal drhW)
      (.obj (some drhW.x) (some (drhW.y + 0.1))) = 180 := by
    show calculateAngle (.obj (some 0.5) (some 0.3)) (.obj (some 0.5) (some 0.6))
      (.obj (some 0.5) (some (0.6 + 0.1))) = 180
    exact calculateAngle_vertical 0.5 0.3 0.6 (0.6 + 0.1) (by norm_num) (by norm_num)
  refine ⟨hN, ?_⟩
  have h2 := h.2.1
  simp only [Option.getD_none] at h2
  rw [h2, hN, hNR, hSL, hSR]
  norm_num

/-- Witness for C7: with shoulders directly above hips, both spine angles are
180 degrees and the slouching issue is not emitted. -/
theorem desk_spine_straightness_witness :
    (evaluateDeskSittingPosture deskW).count (spineString 180 180) = 0 := by
  have h := desk_spine_straightness deskW noseW dlsW drsW dlhW drhW none none
    rfl rfl rfl rfl rfl rfl rfl
    (by norm_num [noseW, dlsW, drsW, dlhW, drhW])
  have hSL : calculateAngle (kpVal dlsW) (kpVal dlhW)
      (.obj (some dlhW.x) (some (dlhW.y + 0.1))) = 180 := by
    show calculateAngle (.obj (some 0.5) (some 0.3)) (.obj (some 0.5) (some 0.6))
      (.obj (some 0.5) (some (0.6 + 0.1))) = 180
    exact calculateAngle_vertical 0.5 0.3 0.6 (0.6 + 0.1) (by norm_num) (by norm_num)
  have hSR : calculateAngle (kpVal drsW) (kpVal drhW)
      (.obj (some drhW.x) (some (drhW.y + 0.1))) = 180 := by
    show calculateAngle (.obj (some 0.5) (some 0.3)) (.obj (some 0.5) (some 0.6))
      (.obj (some 0.5) (some (0.6 + 0.1))) = 180
    exact calculateAngle_vertical 0.5 0.3 0.6 (0.6 + 0.1) (by norm_num) (by norm_num)
  have h1 := h.1
  rw [hSL, hSR] at h1
  rw [h1]
  norm_num

/-- C10: past the desk confidence gate, a left ear that is present in the set
is used as the first point of the left neck angle no matter its score (it is
not gated), and the nose is substituted only for an absent ear — here the
right one. -/
theorem desk_ear_used_regardless_of_score
    (kps : List Keypoint) (n ls rs lh rh e : Keypoint)
    (hn : findKeypoint kps "nose" = some n)
    (hel : findKeypoint kps "left_ear" = some e)
    (her : findKeypoint kps "right_ear" = none)
    (hls : findKeypoint kps "left_shoulder" = some ls)
    (hrs : findKeypoint kps "right_shoulder" = some rs)
    (hlh : findKeypoint kps "left_hip" = some lh)
    (hrh : findKeypoint kps "right_hip" = some rh)
    (hsc : n.score > 0.5 ∧ ls.score > 0.5 ∧ rs.score > 0.5 ∧ lh.score > 0.5 ∧ rh.score > 0.5) :
    evaluateDeskSittingPosture kps =
      (if calculateAngle (kpVal e) (kpVal ls) (kpVal lh) < 150 ∨
          calculateAngle (kpVal n) (kpVal rs) (kpVal rh) < 150 then
        [neckString (calculateAngle (kpVal e) (kpVal ls) (kpVal lh))
          (calculateAngle (kpVal n) (kpVal rs) (kpVal rh))] else []) ++
      (if calculateAngle (kpVal ls) (kpVal lh) (.obj (some lh.x) (some (lh.y + 0.1))) < 160 ∨
          calculateAngle (kpVal rs) (kpVal rh) (.obj (some rh.x) (some (rh.y + 0.1))) < 160 then
        [spineString (calculateAngle (kpVal ls) (kpVal lh) (.obj (some lh.x) (some (lh.y + 0.1))))
          (calculateAngle (kpVal rs) (kpVal rh) (.obj (some rh.x) (some (rh.y + 0.1))))]
        else []) := by
  have hst := evaluateDeskSittingPosture_gate_passed kps n ls rs lh rh (some e) none
    hn hel her hls hrs hlh hrh hsc
  simpa only [Option.getD_some, Option.getD_none] using hst

/-- Witness desk keypoints for C10: as `deskW` but with a left ear present at
score 0, placed at the nose's position. -/
def learW : Keypoint := ⟨"left_ear", 0.5, 0.1, 0⟩

def deskEarW : List Keypoint := [noseW, learW, dlsW, drsW, dlhW, drhW]

/-- Witness for C10: the zero-score left ear is used for the left neck angle
(collinear, 180 degrees) and the evaluator reports no issue. -/
theorem desk_ear_used_regardless_of_score_witness :
    evaluateDeskSittingPosture deskEarW = [] := by
  have h := desk_ear_used_regardless_of_score deskEarW noseW dlsW drsW dlhW drhW learW
    rfl rfl rfl rfl rfl rfl rfl
    (by norm_num [noseW, dlsW, drsW, dlhW, drhW])
  have hNL : calculateAngle (kpVal learW) (kpVal dlsW) (kpVal dlhW) = 180 := by
    show calculateAngle (.obj (some 0.5) (some 0.1)) (.obj (some 0.5) (some 0.3))
      (.obj (some 0.5) (some 0.6)) = 180
    exact calculateAngle_vertical 0.5 0.1 0.3 0.6 (by norm_num) (by norm_num)
  have hNR : calculateAngle (kpVal noseW) (kpVal drsW) (kpVal drhW) = 180 := by
    show calculateAngle (.obj (some 0.5) (some 0.1)) (.obj (some 0.5) (some 0.3))
      (.obj (some 0.5) (some 0.6)) = 180
    exact calculateAngle_vertical 0.5 0.1 0.3 0.6 (by norm_num) (by norm_num)
  have hSL : calculateAngle (kpVal dlsW) (kpVal dlhW)
      (.obj (some dlhW.x) (some (dlhW.y + 0.1))) = 180 := by
    show calculateAngle (.obj (some 0.5) (some 0.3)) (.obj (some 0.5) (some 0.6))
      (.obj (some 0.5) (some (0.6 + 0.1))) = 180
    exact calculateAngle_vertical 0.5 0.3 0.6 (0.6 + 0.1) (by norm_num) (by norm_num)
  have hSR : calculateAngle (kpVal drsW) (kpVal drhW)
      (.obj (some drhW.x) (some (drhW.y + 0.1))) = 180 := by
    show calculateAngle (.obj (some 0.5) (some 0.3)) (.obj (some 0.5) (some 0.6))
      (.obj (some 0.5) (some (0.6 + 0.1))) = 180
    exact calculateAngle_vertical 0.5 0.3 0.6 (0.6 + 0.1) (by norm_num) (by norm_num)
  rw [h, hNL, hNR, hSL, hSR]
  norm_num

/-- Full-body squat keypoints, vertically aligned, all at score 0.1: between
the server revision's 0.01 gate and the controller's 0.2 gate. -/
def squatLow : List Keypoint :=
  [⟨"left_shoulder", 0.5, 0.1, 0.1⟩, ⟨"right_shoulder", 0.5, 0.1, 0.1⟩,
   ⟨"left_hip", 0.5, 0.4, 0.1⟩, ⟨"right_hip", 0.5, 0.4, 0.1⟩,
   ⟨"left_knee", 0.5, 0.7, 0.1⟩, ⟨"right_knee", 0.5, 0.7, 0.1⟩,
   ⟨"left_ankle", 0.5, 0.9, 0.1⟩, ⟨"right_ankle", 0.5, 0.9, 0.1⟩]

/-- Counterexample for C9: the `server.js` inline evaluators are not
observationally equivalent to the controller evaluators.  At score 0.1 the
inline squat evaluator evaluates geometry (finding no issue) while the
controller reports insufficient keypoints; on a straight desk posture passing
the 0.5 gate, the inline desk evaluator's spine angles are 0 (its third spine
argument is a number, not a point) so it reports slouching while the
controller reports nothing. -/
theorem server_controller_divergence :
    serverEvaluateSquatPosture squatLow ≠ evaluateSquatPosture squatLow ∧
    serverEvaluateDeskSittingPosture deskW ≠ evaluateDeskSittingPosture deskW := by
  constructor
  · have hserver : serverEvaluateSquatPosture squatLow = [] := by
      have h := serverEvaluateSquatPosture_gate_passed squatLow
        ⟨"left_shoulder", 0.5, 0.1, 0.1⟩ ⟨"right_shoulder", 0.5, 0.1, 0.1⟩
        ⟨"left_hip", 0.5, 0.4, 0.1⟩ ⟨"right_hip", 0.5, 0.4, 0.1⟩
        ⟨"left_knee", 0.5, 0.7, 0.1⟩ ⟨"right_knee", 0.5, 0.7, 0.1⟩
        ⟨"left_ankle", 0.5, 0.9, 0.1⟩ ⟨"right_ankle", 0.5, 0.9, 0.1⟩
        rfl rfl rfl rfl rfl rfl rfl rfl (by norm_num)
      have hL : calculateAngle (kpVal ⟨"left_shoulder", 0.5, 0.1, 0.1⟩)
          (kpVal ⟨"left_hip", 0.5, 0.4, 0.1⟩) (kpVal ⟨"left_knee", 0.5, 0.7, 0.1⟩) = 180 := by
        show calculateAngle (.obj (some 0.5) (some 0.1)) (.obj (some 0.5) (some 0.4))
          (.obj (some 0.5) (some 0.7)) = 180
        exact calculateAngle_vertical 0.5 0.1 0.4 0.7 (by norm_num) (by norm_num)
      have hR : calculateAngle (kpVal ⟨"right_shoulder", 0.5, 0.1, 0.1⟩)
          (kpVal ⟨"right_hip", 0.5, 0.4, 0.1⟩) (kpVal ⟨"right_knee", 0.5, 0.7, 0.1⟩) = 180 := by
        show calculateAngle (.obj (some 0.5) (some 0.1)) (.obj (some 0.5) (some 0.4))
          (.obj (some 0.5) (some 0.7)) = 180
        exact calculateAngle_vertical 0.5 0.1 0.4 0.7 (by norm_num) (by norm_num)
      rw [h, hL, hR]
      norm_num
    have hctrl : evaluateSquatPosture squatLow =
        ["Insufficient keypoints detected for squat evaluation. Ensure full body is visible."] := by
      refine evaluateSquatPosture_gate_failed squatLow
        ⟨"left_shoulder", by simp [squatRequiredJoints], ?_⟩
      intro k hk
      rw [show findKeypoint squatLow "left_shoulder" =
        some ⟨"left_shoulder", 0.5, 0.1, 0.1⟩ from rfl] at hk
      cases hk
      norm_num
    rw [hserver, hctrl]
    simp
  · have hserver : serverEvaluateDeskSittingPosture deskW =
        [spineString 0 0] := by
      have h := serverEvaluateDeskSittingPosture_gate_passed deskW noseW dlsW drsW dlhW drhW
        none none rfl rfl rfl rfl rfl rfl rfl
        (by norm_num [noseW, dlsW, drsW, dlhW, drhW])
      simp only [Option.getD_none] at h
      have hNL : calculateAngle (kpVal noseW) (kpVal dlsW) (kpVal dlhW) = 180 := by
        show calculateAngle (.obj (some 0.5) (some 0.1)) (.obj (some 0.5) (some 0.3))
          (.obj (some 0.5) (some 0.6)) = 180
        exact calculateAngle_vertical 0.5 0.1 0.3 0.6 (by norm_num) (by norm_num)
      have hNR : calculateAngle (kpVal noseW) (kpVal drsW) (kpVal drhW) = 180 := by
        show calculateAngle (.obj (some 0.5) (some 0.1)) (.obj (some 0.5) (some 0.3))
          (.obj (some 0.5) (some 0.6)) = 180
        exact calculateAngle_vertical 0.5 0.1 0.3 0.6 (by norm_num) (by norm_num)
      rw [h, hNL, hNR, calculateAngle_num_third, calculateAngle_num_third]
      norm_num
    have hctrl : evaluateDeskSittingPosture deskW = [] := by
      have h := evaluateDeskSittingPosture_gate_passed deskW noseW dlsW drsW dlhW drhW
        none none rfl rfl rfl rfl rfl rfl rfl
        (by norm_num [noseW, dlsW, drsW, dlhW, drhW])
      simp only [Option.getD_none] at h
      have hNL : calculateAngle (kpVal noseW) (kpVal dlsW) (kpVal dlhW) = 180 := by
        show calculateAngle (.obj (some 0.5) (some 0.1)) (.obj (some 0.5) (some 0.3))
          (.obj (some 0.5) (some 0.6)) = 180
        exact calculateAngle_vertical 0.5 0.1 0.3 0.6 (by norm_num) (by norm_num)
      have hNR : calculateAngle (kpVal noseW) (kpVal drsW) (kpVal drhW) = 180 := by
        show calculateAngle (.obj (some 0.5) (some 0.1)) (.obj (some 0.5) (some 0.3))
          (.obj (some 0.5) (some 0.6)) = 180
        exact calculateAngle_vertical 0.5 0.1 0.3 0.6 (by norm_num) (by norm_num)
      have hSL : calculateAngle (kpVal dlsW) (kpVal dlhW)
          (.obj (some dlhW.x) (some (dlhW.y + 0.1))) = 180 := by
        show calculateAngle (.obj (some 0.5) (some 0.3)) (.obj (some 0.5) (some 0.6))
          (.obj (some 0.5) (some (0.6 + 0.1))) = 180
        exact calculateAngle_vertical 0.5 0.3 0.6 (0.6 + 0.1) (by norm_num) (by norm_num)
      have hSR : calculateAngle (kpVal drsW) (kpVal drhW)
          (.obj (some drhW.x) (some (drhW.y + 0.1))) = 180 := by
        show calculateAngle (.obj (some 0.5) (some 0.3)) (.obj (some 0.5) (some 0.6))
          (.obj (some 0.5) (some (0.6 + 0.1))) = 180
        exact calculateAngle_vertical 0.5 0.3 0.6 (0.6 + 0.1) (by norm_num) (by norm_num)
      rw [h, hNL, hNR, hSL, hSR]
      norm_num
    rw [hserver, hctrl]
    simp

/-- C9 (amended): the inline `server.js` evaluators agree with the controller
evaluators on every keypoint set where their confidence gates agree — for
squat, when every required joint scores above 0.2 or some required joint is
absent or scores at most 0.01; for desk, whenever the shared 0.5 gate fails.
They are not equivalent in general (see the divergence counterexample). -/
theorem server_controller_agreement :
    (∀ kps : List Keypoint,
      ((∀ name ∈ squatRequiredJoints, ∃ k, findKeypoint kps name = some k ∧ k.score > 0.2) ∨
       (∃ name ∈ squatRequiredJoints, ∀ k, findKeypoint kps name = some k → k.score ≤ 0.01)) →
      serverEvaluateSquatPosture kps = evaluateSquatPosture kps) ∧
    (∀ kps : List Keypoint,
      (∃ name ∈ deskRequiredJoints, ∀ k, findKeypoint kps name = some k → k.score ≤ 0.5) →
      serverEvaluateDeskSittingPosture kps = evaluateDeskSittingPosture kps) := by
  constructor
  · intro kps h
    rcases h with h | h
    · obtain ⟨ls, hls, hsls⟩ := h "left_shoulder" (by simp [squatRequiredJoints])
      obtain ⟨rs, hrs, hsrs⟩ := h "right_shoulder" (by simp [squatRequiredJoints])
      obtain ⟨lh, hlh, hslh⟩ := h "left_hip" (by simp [squatRequiredJoints])
      obtain ⟨rh, hrh, hsrh⟩ := h "right_hip" (by simp [squatRequiredJoints])
      obtain ⟨lk, hlk, hslk⟩ := h "left_knee" (by simp [squatRequiredJoints])
      obtain ⟨rk, hrk, hsrk⟩ := h "right_knee" (by simp [squatRequiredJoints])
      obtain ⟨la, hla, hsla⟩ := h "left_ankle" (by simp [squatRequiredJoints])
      obtain ⟨ra, hra, hsra⟩ := h "right_ankle" (by simp [squatRequiredJoints])
      rw [serverEvaluateSquatPosture_gate_passed kps ls rs lh rh lk rk la ra
          hls hrs hlh hrh hlk hrk hla hra
          ⟨by linarith, by linarith, by linarith, by linarith,
           by linarith, by linarith, by linarith, by linarith⟩,
        evaluateSquatPosture_gate_passed kps ls rs lh rh lk rk la ra
          hls hrs hlh hrh hlk hrk hla hra
          ⟨hsls, hsrs, hslh, hsrh, hslk, hsrk, hsla, hsra⟩]
    · obtain ⟨name, hmem, hlow⟩ := h
      rw [serverEvaluateSquatPosture_gate_failed kps ⟨name, hmem, hlow⟩,
        evaluateSquatPosture_gate_failed kps
          ⟨name, hmem, fun k hk => le_trans (hlow k hk) (by norm_num)⟩]
  · intro kps h
    rw [serverEvaluateDeskSittingPosture_gate_failed kps h,
      evaluateDeskSittingPosture_gate_failed kps h]

/-- Witness for the amended C9: on the empty keypoint set both gates fail the
same way and both evaluator pairs agree. -/
theorem server_controller_agreement_witness :
    serverEvaluateSquatPosture [] = evaluateSquatPosture [] ∧
    serverEvaluateDeskSittingPosture [] = evaluateDeskSittingPosture [] :=
  ⟨server_controller_agreement.1 []
      (Or.inr ⟨"left_shoulder", by simp [squatRequiredJoints],
        by intro k hk; simp [findKeypoint] at hk⟩),
    server_controller_agreement.2 []
      ⟨"nose", by simp [deskRequiredJoints], by intro k hk; simp [findKeypoint] at hk⟩⟩
